import Mathlib

/-!
Verification of the neural-network engine (Matrix + NeuralNetwork) of the
`neural-network-xor` repository.

Modelling conventions:
* JS `number` is modelled as the real numbers `ℝ`.
* A JS array-of-arrays `number[][]` is a `Grid := List (List ℝ)`.
* JS object identity of the backing arrays matters for the aliasing claims, so
  the persistent grids (the four matrices owned by a network, and the grids a
  serialized snapshot points at) live in an explicit store `Store := List Grid`;
  an array reference is an index into the store.  All temporary matrices created
  inside `predict`/`train` are freshly allocated in the source and never alias a
  stored grid, so they are kept as plain values.
* Thrown `Error` objects are modelled by their message strings, and fallible
  operations return `Except`.  At the network level the error also carries the
  store as it stood when the exception was raised.
* The in-place entry loops of the source (`for i < this.rows: for j < this.cols`)
  are modelled by rebuilding the grid over exactly those bounds (`mkGrid`); an
  out-of-range JS read yields `undefined` and is modelled by the default `0`.
-/

namespace NNXor

/-- A JS `number[][]`: the backing grid of a `Matrix`. -/
abbrev Grid := List (List ℝ)

/-- `ent g i j` models the JS element read `g[i][j]`; out-of-range reads default
to `0`. -/
def ent (g : Grid) (i j : ℕ) : ℝ := (g.getD i []).getD j 0

/-- The grid produced by the canonical double loop of the source,
`for (i < r) for (j < c) result[i][j] = f i j`. -/
def mkGrid (r c : ℕ) (f : ℕ → ℕ → ℝ) : Grid :=
  (List.range r).map fun i => (List.range c).map fun j => f i j

/-- A grid is well-formed for shape `r × c` when it is literally rectangular. -/
def Grid.wf (r c : ℕ) (g : Grid) : Prop :=
  g.length = r ∧ ∀ row ∈ g, row.length = c

theorem length_mkGrid (r c : ℕ) (f : ℕ → ℕ → ℝ) : (mkGrid r c f).length = r := by
  simp [mkGrid]

theorem mkGrid_wf (r c : ℕ) (f : ℕ → ℕ → ℝ) : Grid.wf r c (mkGrid r c f) := by
  refine ⟨length_mkGrid r c f, ?_⟩
  intro row hrow
  simp only [mkGrid, List.mem_map] at hrow
  obtain ⟨i, _, rfl⟩ := hrow
  simp

theorem ent_mkGrid (r c : ℕ) (f : ℕ → ℕ → ℝ) (i j : ℕ) (hi : i < r) (hj : j < c) :
    ent (mkGrid r c f) i j = f i j := by
  simp [ent, mkGrid, List.getD_eq_getElem?_getD, List.getElem?_map,
    List.getElem?_range, hi, hj]

/-- Summation as performed by the source's accumulation loop
`let sum = 0; for (k < n) sum += f k`. -/
theorem foldl_range_sum (n : ℕ) (f : ℕ → ℝ) :
    (List.range n).foldl (fun s k => s + f k) 0 = ∑ k ∈ Finset.range n, f k := by
  induction n with
  | zero => simp
  | succ n ih => simp [List.range_succ, Finset.sum_range_succ, ih]

/-- Errors are the literal message strings of the source's `throw new Error(...)`. -/
abbrev JSError := String

/-- Source message of `Matrix.add` with mismatched shapes. -/
def addErrorMsg : String := "Matrix dimensions must match for addition."

/-- Source message of `Matrix.subtract` with mismatched shapes. -/
def subtractErrorMsg : String := "Matrix dimensions must match for subtraction."

/-- Source message of the static matrix product with `a.cols ≠ b.rows`. -/
def dotErrorMsg : String := "Columns of A must match rows of B for dot product."

/-- Source message of the element-wise instance `multiply` with mismatched shapes. -/
def elemMulErrorMsg : String := "Matrix dimensions must match for element-wise multiplication."

/-- Spec §7 taxonomy: a ShapeMismatch error is one raised by the
equal-shape checks of add / subtract / element-wise multiply. -/
def IsShapeMismatch (e : JSError) : Prop :=
  e = addErrorMsg ∨ e = subtractErrorMsg ∨ e = elemMulErrorMsg

/-- Spec §7 taxonomy: a DimensionMismatch error is the one raised by the matrix
product's `a.cols ≠ b.rows` check. -/
def IsDimensionMismatch (e : JSError) : Prop := e = dotErrorMsg

/-- The `Matrix` class: `rows`/`cols` fields plus the backing grid. -/
structure Matrix where
  rows : ℕ
  cols : ℕ
  data : Grid

/-- A matrix is well-formed when its grid matches its `rows`/`cols` fields. -/
def Matrix.wf (m : Matrix) : Prop := Grid.wf m.rows m.cols m.data

/-- `new Matrix(rows, cols)`: zero-filled grid of the given shape. -/
def newMatrix (rows cols : ℕ) : Matrix :=
  { rows := rows, cols := cols, data := mkGrid rows cols fun _ _ => 0 }

/-- `Matrix.fromArray(arr)`: an `arr.length × 1` column vector. -/
def Matrix.fromArray (arr : List ℝ) : Matrix :=
  { rows := arr.length, cols := 1, data := mkGrid arr.length 1 fun i _ => arr.getD i 0 }

/-- `toArray()`: row-major flattening over the `rows`/`cols` fields. -/
def Matrix.toArray (m : Matrix) : List ℝ :=
  ((List.range m.rows).map fun i => (List.range m.cols).map fun j => ent m.data i j).flatten

/-- `randomize()`: every entry becomes `Math.random() * 2 - 1`; the drawn
values of `Math.random()` are supplied by the oracle `rnd`. -/
def Matrix.randomize (m : Matrix) (rnd : ℕ → ℕ → ℝ) : Matrix :=
  { m with data := mkGrid m.rows m.cols fun i j => rnd i j * 2 - 1 }

/-- Instance `add(n)` with a `Matrix` argument: shape check, then in-place
element-wise addition over the receiver's `rows`/`cols`. -/
def Matrix.add (m n : Matrix) : Except JSError Matrix :=
  if m.rows ≠ n.rows ∨ m.cols ≠ n.cols then .error addErrorMsg
  else .ok { m with data := mkGrid m.rows m.cols fun i j => ent m.data i j + ent n.data i j }

/-- Instance `add(n)` with a scalar argument. -/
def Matrix.addScalar (m : Matrix) (x : ℝ) : Matrix :=
  { m with data := mkGrid m.rows m.cols fun i j => ent m.data i j + x }

/-- Static `Matrix.subtract(a, b)`: shape check, fresh result `a - b`. -/
def Matrix.subtract (a b : Matrix) : Except JSError Matrix :=
  if a.rows ≠ b.rows ∨ a.cols ≠ b.cols then .error subtractErrorMsg
  else .ok { rows := a.rows, cols := a.cols,
             data := mkGrid a.rows a.cols fun i j => ent a.data i j - ent b.data i j }

/-- Static `Matrix.transpose(m)`: fresh `cols × rows` result with entries
swapped across the diagonal. -/
def Matrix.transpose (m : Matrix) : Matrix :=
  { rows := m.cols, cols := m.rows, data := mkGrid m.cols m.rows fun i j => ent m.data j i }

/-- Static `Matrix.multiply(a, b)`: the matrix product, with the
`a.cols ≠ b.rows` dimension check and plain accumulation loops. -/
def Matrix.multiply (a b : Matrix) : Except JSError Matrix :=
  if a.cols ≠ b.rows then .error dotErrorMsg
  else .ok { rows := a.rows, cols := b.cols,
             data := mkGrid a.rows b.cols fun i j =>
               (List.range a.cols).foldl (fun sum k => sum + ent a.data i k * ent b.data k j) 0 }

/-- Instance `multiply(n)` with a `Matrix` argument: element-wise (Hadamard)
multiplication in place (the source overloads the name `multiply`). -/
def Matrix.multiplyElem (m n : Matrix) : Except JSError Matrix :=
  if m.rows ≠ n.rows ∨ m.cols ≠ n.cols then .error elemMulErrorMsg
  else .ok { m with data := mkGrid m.rows m.cols fun i j => ent m.data i j * ent n.data i j }

/-- Instance `multiply(n)` with a scalar argument: scaling in place. -/
def Matrix.multiplyScalar (m : Matrix) (x : ℝ) : Matrix :=
  { m with data := mkGrid m.rows m.cols fun i j => ent m.data i j * x }

/-- `map(fn)` (the instance and static versions produce the same data). -/
def Matrix.map (m : Matrix) (fn : ℝ → ℝ) : Matrix :=
  { m with data := mkGrid m.rows m.cols fun i j => fn (ent m.data i j) }

/-- `sigmoid(x) = 1 / (1 + Math.exp(-x))`. -/
noncomputable def sigmoid (x : ℝ) : ℝ := 1 / (1 + Real.exp (-x))

/-- `dsigmoid(y) = y * (1 - y)`. -/
def dsigmoid (y : ℝ) : ℝ := y * (1 - y)

/-- The store of live JS arrays; an array reference is an index into it. -/
abbrev Store := List Grid

/-- Dereference an array: `st.get r` is the grid the reference `r` points at. -/
def Store.get (st : Store) (r : ℕ) : Grid := st.getD r []

/-- A matrix owned by a network: its `rows`/`cols` fields plus a reference to
its backing grid in the store. -/
structure HMat where
  rows : ℕ
  cols : ℕ
  ref : ℕ

/-- Read a stored matrix as a value. -/
def HMat.get (m : HMat) (st : Store) : Matrix :=
  { rows := m.rows, cols := m.cols, data := st.get m.ref }

/-- The `NeuralNetwork` class. -/
structure NeuralNetwork where
  inputNodes : ℕ
  hiddenNodes : ℕ
  outputNodes : ℕ
  weights_ih : HMat
  weights_ho : HMat
  bias_h : HMat
  bias_o : HMat
  learningRate : ℝ

/-- The `SerializedNetwork` interface: the three topology integers, the
learning rate, and the four `number[][]` grids.  Holding a JS array value is
holding a reference, so the grid fields are store references. -/
structure SerializedNetwork where
  inputNodes : ℕ
  hiddenNodes : ℕ
  outputNodes : ℕ
  weights_ih : ℕ
  weights_ho : ℕ
  bias_h : ℕ
  bias_o : ℕ
  learningRate : ℝ

/-- The `NeuralNetwork` constructor: allocates four freshly randomized
matrices (the oracle `rnd m i j` supplies the `Math.random()` draw for entry
`(i, j)` of the `m`-th matrix created) and sets `learningRate = 0.1`. -/
def NeuralNetwork.construct (st : Store) (input hidden output : ℕ)
    (rnd : ℕ → ℕ → ℕ → ℝ) : Store × NeuralNetwork :=
  let w_ih := (newMatrix hidden input).randomize (rnd 0)
  let w_ho := (newMatrix output hidden).randomize (rnd 1)
  let b_h := (newMatrix hidden 1).randomize (rnd 2)
  let b_o := (newMatrix output 1).randomize (rnd 3)
  (st ++ [w_ih.data, w_ho.data, b_h.data, b_o.data],
   { inputNodes := input, hiddenNodes := hidden, outputNodes := output,
     weights_ih := { rows := hidden, cols := input, ref := st.length },
     weights_ho := { rows := output, cols := hidden, ref := st.length + 1 },
     bias_h := { rows := hidden, cols := 1, ref := st.length + 2 },
     bias_o := { rows := output, cols := 1, ref := st.length + 3 },
     learningRate := 0.1 })

/-- `setLearningRate(rate)`: unconditional replacement. -/
def NeuralNetwork.setLearningRate (net : NeuralNetwork) (rate : ℝ) : NeuralNetwork :=
  { net with learningRate := rate }

/-- A fallible matrix operation inside a method body: on failure the thrown
error propagates together with the store as it stands at the throw site, on
success the continuation runs.  This is the translation of calling a
potentially-throwing operation in JS. -/
def orRaise (st : Store) (x : Except JSError α)
    (k : α → Except (JSError × Store) β) : Except (JSError × Store) β :=
  match x with
  | .error e => .error (e, st)
  | .ok v => k v

theorem orRaise_ok (st : Store) (v : α) (k : α → Except (JSError × Store) β) :
    orRaise st (.ok v) k = k v := rfl

theorem orRaise_error (st : Store) (e : JSError) (k : α → Except (JSError × Store) β) :
    orRaise st (.error e) k = .error (e, st) := rfl

/-- `predict(input_array)`: the forward pass.  The source never assigns to any
`this.*` field, so the translation threads the store through unchanged; an
exception carries the store as it stood when thrown. -/
noncomputable def NeuralNetwork.predict (st : Store) (net : NeuralNetwork)
    (input_array : List ℝ) : Except (JSError × Store) (List ℝ × Store) :=
  let inputs := Matrix.fromArray input_array
  orRaise st (Matrix.multiply (net.weights_ih.get st) inputs) fun hidden =>
  orRaise st (hidden.add (net.bias_h.get st)) fun hidden =>
  let hidden := hidden.map sigmoid
  orRaise st (Matrix.multiply (net.weights_ho.get st) hidden) fun output =>
  orRaise st (output.add (net.bias_o.get st)) fun output =>
  let output := output.map sigmoid
  .ok (output.toArray, st)

/-- `train(input_array, target_array)`: one stochastic-gradient step, translated
with the source's literal sequencing.  The four in-place mutations of the
network's stored matrices become store writes at their references; note that
`who_t` is computed from the store AFTER `weights_ho` has been written, exactly
as `this.weights_ho` is re-read after its in-place `add` in the source.  An
exception carries the store as it stood when thrown. -/
noncomputable def NeuralNetwork.train (st : Store) (net : NeuralNetwork)
    (input_array target_array : List ℝ) : Except (JSError × Store) Store :=
  let inputs := Matrix.fromArray input_array
  let targets := Matrix.fromArray target_array
  -- Feedforward
  orRaise st (Matrix.multiply (net.weights_ih.get st) inputs) fun hidden =>
  orRaise st (hidden.add (net.bias_h.get st)) fun hidden =>
  let hidden := hidden.map sigmoid
  orRaise st (Matrix.multiply (net.weights_ho.get st) hidden) fun outputs =>
  orRaise st (outputs.add (net.bias_o.get st)) fun outputs =>
  let outputs := outputs.map sigmoid
  -- Backpropagation: output errors
  orRaise st (Matrix.subtract targets outputs) fun output_errors =>
  -- output gradient
  orRaise st ((outputs.map dsigmoid).multiplyElem output_errors) fun gradients =>
  let gradients := gradients.multiplyScalar net.learningRate
  -- deltas for hidden-to-output weights
  let hidden_t := Matrix.transpose hidden
  orRaise st (Matrix.multiply gradients hidden_t) fun weight_ho_deltas =>
  -- adjust weights_ho and bias_o (in place: store writes)
  orRaise st ((net.weights_ho.get st).add weight_ho_deltas) fun new_weights_ho =>
  let st1 := st.set net.weights_ho.ref new_weights_ho.data
  orRaise st1 ((net.bias_o.get st1).add gradients) fun new_bias_o =>
  let st2 := st1.set net.bias_o.ref new_bias_o.data
  -- hidden layer errors, from the already-updated weights_ho
  let who_t := Matrix.transpose (net.weights_ho.get st2)
  orRaise st2 (Matrix.multiply who_t output_errors) fun hidden_errors =>
  -- hidden gradient
  orRaise st2 ((hidden.map dsigmoid).multiplyElem hidden_errors) fun hidden_gradient =>
  let hidden_gradient := hidden_gradient.multiplyScalar net.learningRate
  -- deltas for input-to-hidden weights
  let inputs_t := Matrix.transpose inputs
  orRaise st2 (Matrix.multiply hidden_gradient inputs_t) fun weight_ih_deltas =>
  -- adjust weights_ih and bias_h (in place: store writes)
  orRaise st2 ((net.weights_ih.get st2).add weight_ih_deltas) fun new_weights_ih =>
  let st3 := st2.set net.weights_ih.ref new_weights_ih.data
  orRaise st3 ((net.bias_h.get st3).add hidden_gradient) fun new_bias_h =>
  .ok (st3.set net.bias_h.ref new_bias_h.data)

/-- `serialize()`: builds the snapshot object field by field.  The integer and
float fields are copied by value; the four grid fields are the JS expressions
`this.weights_ih.data` etc., i.e. references to the live backing arrays. -/
def NeuralNetwork.serialize (net : NeuralNetwork) : SerializedNetwork :=
  { inputNodes := net.inputNodes, hiddenNodes := net.hiddenNodes,
    outputNodes := net.outputNodes,
    weights_ih := net.weights_ih.ref, weights_ho := net.weights_ho.ref,
    bias_h := net.bias_h.ref, bias_o := net.bias_o.ref,
    learningRate := net.learningRate }

/-- `deserialize(data)`: replaces topology and learning rate, and rebuilds each
matrix with `rows`/`cols` from the installed topology and `data` assigned the
snapshot's array reference.  (The source's intermediate `new Matrix(r, c)`
allocates a zero grid whose `data` field is immediately replaced by the
snapshot's array, so that dead allocation is unobservable and omitted.) -/
def NeuralNetwork.deserialize (_net : NeuralNetwork) (data : SerializedNetwork) :
    NeuralNetwork :=
  { inputNodes := data.inputNodes, hiddenNodes := data.hiddenNodes,
    outputNodes := data.outputNodes, learningRate := data.learningRate,
    weights_ih := { rows := data.hiddenNodes, cols := data.inputNodes, ref := data.weights_ih },
    weights_ho := { rows := data.outputNodes, cols := data.hiddenNodes, ref := data.weights_ho },
    bias_h := { rows := data.hiddenNodes, cols := 1, ref := data.bias_h },
    bias_o := { rows := data.outputNodes, cols := 1, ref := data.bias_o } }

/-- The network shape invariant on the `rows`/`cols` fields (spec §3). -/
def NeuralNetwork.wfShape (net : NeuralNetwork) : Prop :=
  net.weights_ih.rows = net.hiddenNodes ∧ net.weights_ih.cols = net.inputNodes ∧
  net.weights_ho.rows = net.outputNodes ∧ net.weights_ho.cols = net.hiddenNodes ∧
  net.bias_h.rows = net.hiddenNodes ∧ net.bias_h.cols = 1 ∧
  net.bias_o.rows = net.outputNodes ∧ net.bias_o.cols = 1

/-- A stored matrix is backed by an allocated, rectangular grid matching its
`rows`/`cols` fields. -/
def HMat.wfIn (m : HMat) (st : Store) : Prop :=
  m.ref < st.length ∧ Grid.wf m.rows m.cols (st.get m.ref)

/-- Each stored grid is allocated, rectangular and matches its field shape. -/
def NeuralNetwork.wfGrids (st : Store) (net : NeuralNetwork) : Prop :=
  net.weights_ih.wfIn st ∧ net.weights_ho.wfIn st ∧
  net.bias_h.wfIn st ∧ net.bias_o.wfIn st

/-- The four matrices are separately allocated arrays (spec §3: matrices are
exclusively owned, no aliasing between them); the constructor establishes this. -/
def NeuralNetwork.wfRefs (net : NeuralNetwork) : Prop :=
  net.weights_ih.ref ≠ net.weights_ho.ref ∧ net.weights_ih.ref ≠ net.bias_h.ref ∧
  net.weights_ih.ref ≠ net.bias_o.ref ∧ net.weights_ho.ref ≠ net.bias_h.ref ∧
  net.weights_ho.ref ≠ net.bias_o.ref ∧ net.bias_h.ref ≠ net.bias_o.ref

/-- Full network well-formedness. -/
def NeuralNetwork.wf (st : Store) (net : NeuralNetwork) : Prop :=
  net.wfShape ∧ net.wfGrids st ∧ net.wfRefs

/-! ### Specification-side definitions

The following are written from the spec's own words (§4.2), for the refinement
claims that compare the code against the spec's formulas. -/

/-- Spec §4.2: `hidden = sigmoid(weights_ih · input + bias_h)`, entry `j`,
with the matrix product formed by plain dot-product summation. -/
noncomputable def specHiddenVal (Wih bh : Grid) (x : List ℝ) (I : ℕ) (j : ℕ) : ℝ :=
  sigmoid ((∑ i ∈ Finset.range I, ent Wih j i * x.getD i 0) + ent bh j 0)

/-- Spec §4.2: `output = sigmoid(weights_ho · hidden + bias_o)`, entry `k`. -/
noncomputable def specOutputVal (Wih Who bh bo : Grid) (x : List ℝ) (I H : ℕ) (k : ℕ) : ℝ :=
  sigmoid ((∑ j ∈ Finset.range H, ent Who k j * specHiddenVal Wih bh x I j) + ent bo k 0)

/-- Spec §4.2 `predict`: the flat output vector of length `O`. -/
noncomputable def specPredict (I H O : ℕ) (Wih Who bh bo : Grid) (x : List ℝ) : List ℝ :=
  (List.range O).map (specOutputVal Wih Who bh bo x I H)

/-- Spec §4.2 `train`, steps 1–7, for an `I`-`H`-`O` topology: returns the
updated `(weights_ih, weights_ho, bias_h, bias_o)` grids.  Step 5 computes the
hidden error from the ALREADY-UPDATED hidden-to-output weights of step 4
(`hiddenError = transpose(weights_ho) · outputError` with the post-update
`weights_ho`), which is the reference's literal in-place sequencing that the
spec fixes as the contract. -/
noncomputable def specTrain (I H O : ℕ) (Wih Who bh bo : Grid) (lr : ℝ)
    (x t : List ℝ) : Grid × Grid × Grid × Grid :=
  -- step 1: forward pass
  let hidden : ℕ → ℝ := specHiddenVal Wih bh x I
  let output : ℕ → ℝ := specOutputVal Wih Who bh bo x I H
  -- step 2: outputError = target − output
  let outputError : ℕ → ℝ := fun k => t.getD k 0 - output k
  -- step 3: outputGradient = output ⊙ (1 − output) ⊙ outputError ⊙ learningRate
  let outputGradient : ℕ → ℝ := fun k => output k * (1 - output k) * outputError k * lr
  -- step 4: weights_ho += outputGradient · transpose(hidden)
  let WhoNew : ℕ → ℕ → ℝ := fun k j => ent Who k j + outputGradient k * hidden j
  -- step 5: hiddenError = transpose(weights_ho) · outputError, POST-update
  let hiddenError : ℕ → ℝ := fun j => ∑ k ∈ Finset.range O, WhoNew k j * outputError k
  -- step 6: hiddenGradient = hidden ⊙ (1 − hidden) ⊙ hiddenError ⊙ learningRate
  let hiddenGradient : ℕ → ℝ := fun j => hidden j * (1 - hidden j) * hiddenError j * lr
  -- step 7: weights_ih += hiddenGradient · transpose(input); biases += gradients
  (mkGrid H I fun j i => ent Wih j i + hiddenGradient j * x.getD i 0,
   mkGrid O H WhoNew,
   mkGrid H 1 fun j _ => ent bh j 0 + hiddenGradient j,
   mkGrid O 1 fun k _ => ent bo k 0 + outputGradient k)

/-! ### Basic lemmas about the matrix operations -/

theorem mkGrid_congr {r c : ℕ} {f g : ℕ → ℕ → ℝ}
    (h : ∀ i < r, ∀ j < c, f i j = g i j) : mkGrid r c f = mkGrid r c g := by
  unfold mkGrid
  refine List.map_congr_left fun i hi => ?_
  refine List.map_congr_left fun j hj => ?_
  exact h i (List.mem_range.mp hi) j (List.mem_range.mp hj)

theorem Matrix.multiply_ok (a b : Matrix) (h : a.cols = b.rows) :
    Matrix.multiply a b = .ok (Matrix.mk a.rows b.cols
      (mkGrid a.rows b.cols fun i j =>
        (List.range a.cols).foldl (fun sum k => sum + ent a.data i k * ent b.data k j) 0)) := by
  simp [Matrix.multiply, h]

theorem Matrix.multiply_error (a b : Matrix) (h : a.cols ≠ b.rows) :
    Matrix.multiply a b = .error dotErrorMsg := by
  simp [Matrix.multiply, h]

theorem Matrix.add_ok (m n : Matrix) (h1 : m.rows = n.rows) (h2 : m.cols = n.cols) :
    Matrix.add m n = .ok (Matrix.mk m.rows m.cols
      (mkGrid m.rows m.cols fun i j => ent m.data i j + ent n.data i j)) := by
  simp [Matrix.add, h1, h2]

theorem Matrix.add_error (m n : Matrix) (h : m.rows ≠ n.rows ∨ m.cols ≠ n.cols) :
    Matrix.add m n = .error addErrorMsg := by
  unfold Matrix.add
  rw [if_pos h]

theorem Matrix.subtract_ok (a b : Matrix) (h1 : a.rows = b.rows) (h2 : a.cols = b.cols) :
    Matrix.subtract a b = .ok (Matrix.mk a.rows a.cols
      (mkGrid a.rows a.cols fun i j => ent a.data i j - ent b.data i j)) := by
  simp [Matrix.subtract, h1, h2]

theorem Matrix.subtract_error (a b : Matrix) (h : a.rows ≠ b.rows ∨ a.cols ≠ b.cols) :
    Matrix.subtract a b = .error subtractErrorMsg := by
  unfold Matrix.subtract
  rw [if_pos h]

theorem Matrix.multiplyElem_ok (m n : Matrix) (h1 : m.rows = n.rows) (h2 : m.cols = n.cols) :
    Matrix.multiplyElem m n = .ok (Matrix.mk m.rows m.cols
      (mkGrid m.rows m.cols fun i j => ent m.data i j * ent n.data i j)) := by
  simp [Matrix.multiplyElem, h1, h2]

theorem Matrix.multiplyElem_error (m n : Matrix) (h : m.rows ≠ n.rows ∨ m.cols ≠ n.cols) :
    Matrix.multiplyElem m n = .error elemMulErrorMsg := by
  unfold Matrix.multiplyElem
  rw [if_pos h]

theorem flatten_singletons (l : List ℕ) (g : ℕ → ℝ) :
    (l.map fun i => [g i]).flatten = l.map g := by
  induction l with
  | nil => rfl
  | cons a l ih => simp [ih]

/-- `toArray` of a column vector whose grid was built by `mkGrid`. -/
theorem toArray_col (R : ℕ) (f : ℕ → ℕ → ℝ) :
    (Matrix.mk R 1 (mkGrid R 1 f)).toArray = (List.range R).map fun i => f i 0 := by
  unfold Matrix.toArray
  simp only
  rw [show ((List.range R).map fun i => (List.range 1).map fun j => ent (mkGrid R 1 f) i j)
        = (List.range R).map fun i => [f i 0] from ?_]
  · exact flatten_singletons _ _
  · refine List.map_congr_left fun i hi => ?_
    have hi' := List.mem_range.mp hi
    simp [show List.range 1 = [0] from rfl, ent_mkGrid R 1 f i 0 hi' Nat.one_pos]

/-! ### Store lemmas -/

theorem Store.get_set_self (st : Store) (r : ℕ) (g : Grid) (h : r < st.length) :
    Store.get (st.set r g) r = g := by
  simp [Store.get, List.getD_eq_getElem?_getD, List.getElem?_set_eq_of_lt, h]

theorem Store.get_set_ne (st : Store) (r r' : ℕ) (g : Grid) (h : r ≠ r') :
    Store.get (st.set r g) r' = Store.get st r' := by
  simp [Store.get, List.getD_eq_getElem?_getD, List.getElem?_set_ne h]

theorem Store.get_append_right (st : Store) (l : List Grid) (k : ℕ) :
    Store.get (st ++ l) (st.length + k) = l.getD k [] := by
  simp only [Store.get, List.getD_eq_getElem?_getD]
  rw [List.getElem?_append_right (Nat.le_add_right st.length k)]
  simp [List.getD_eq_getElem?_getD]

/-! ### Grid combinators

Definitional abbreviations for the grids the matrix operations produce
(each `*_eq` lemma is `rfl`); they keep the terms of the evaluation proofs
compact. -/

/-- The grid of a matrix product `R×K · K×C`. -/
noncomputable def gMul (R K C : ℕ) (g1 g2 : Grid) : Grid :=
  mkGrid R C fun i j => (List.range K).foldl (fun sum k => sum + ent g1 i k * ent g2 k j) 0

/-- The grid of an element-wise sum. -/
noncomputable def gAdd (R C : ℕ) (g1 g2 : Grid) : Grid :=
  mkGrid R C fun i j => ent g1 i j + ent g2 i j

/-- The grid of an element-wise difference. -/
noncomputable def gSub (R C : ℕ) (g1 g2 : Grid) : Grid :=
  mkGrid R C fun i j => ent g1 i j - ent g2 i j

/-- The grid of an element-wise (Hadamard) product. -/
noncomputable def gHad (R C : ℕ) (g1 g2 : Grid) : Grid :=
  mkGrid R C fun i j => ent g1 i j * ent g2 i j

/-- The grid of a scalar multiple. -/
noncomputable def gScale (R C : ℕ) (g : Grid) (s : ℝ) : Grid :=
  mkGrid R C fun i j => ent g i j * s

/-- The grid of an element-wise function application. -/
noncomputable def gMap (R C : ℕ) (f : ℝ → ℝ) (g : Grid) : Grid :=
  mkGrid R C fun i j => f (ent g i j)

/-- The grid of a transpose (`R×C` result from a `C×R` source). -/
noncomputable def gT (R C : ℕ) (g : Grid) : Grid :=
  mkGrid R C fun i j => ent g j i

/-- The grid of `Matrix.fromArray`. -/
noncomputable def gCol (v : List ℝ) : Grid :=
  mkGrid v.length 1 fun i _ => v.getD i 0

theorem fromArray_eq (v : List ℝ) : Matrix.fromArray v = Matrix.mk v.length 1 (gCol v) := rfl

theorem map_eq (m : Matrix) (f : ℝ → ℝ) :
    Matrix.map m f = Matrix.mk m.rows m.cols (gMap m.rows m.cols f m.data) := rfl

theorem transpose_eq (m : Matrix) :
    Matrix.transpose m = Matrix.mk m.cols m.rows (gT m.cols m.rows m.data) := rfl

theorem multiplyScalar_eq (m : Matrix) (s : ℝ) :
    Matrix.multiplyScalar m s = Matrix.mk m.rows m.cols (gScale m.rows m.cols m.data s) := rfl

theorem multiply_ok' (a b : Matrix) (h : a.cols = b.rows) :
    Matrix.multiply a b = .ok (Matrix.mk a.rows b.cols (gMul a.rows a.cols b.cols a.data b.data)) :=
  Matrix.multiply_ok a b h

theorem add_ok' (m n : Matrix) (h1 : m.rows = n.rows) (h2 : m.cols = n.cols) :
    Matrix.add m n = .ok (Matrix.mk m.rows m.cols (gAdd m.rows m.cols m.data n.data)) :=
  Matrix.add_ok m n h1 h2

theorem subtract_ok' (a b : Matrix) (h1 : a.rows = b.rows) (h2 : a.cols = b.cols) :
    Matrix.subtract a b = .ok (Matrix.mk a.rows a.cols (gSub a.rows a.cols a.data b.data)) :=
  Matrix.subtract_ok a b h1 h2

theorem multiplyElem_ok' (m n : Matrix) (h1 : m.rows = n.rows) (h2 : m.cols = n.cols) :
    Matrix.multiplyElem m n = .ok (Matrix.mk m.rows m.cols (gHad m.rows m.cols m.data n.data)) :=
  Matrix.multiplyElem_ok m n h1 h2

theorem ent_gMul (R K C : ℕ) (g1 g2 : Grid) (i j : ℕ) (hi : i < R) (hj : j < C) :
    ent (gMul R K C g1 g2) i j = ∑ k ∈ Finset.range K, ent g1 i k * ent g2 k j := by
  unfold gMul
  rw [ent_mkGrid _ _ _ i j hi hj, foldl_range_sum]

theorem ent_gAdd (R C : ℕ) (g1 g2 : Grid) (i j : ℕ) (hi : i < R) (hj : j < C) :
    ent (gAdd R C g1 g2) i j = ent g1 i j + ent g2 i j := by
  unfold gAdd
  rw [ent_mkGrid _ _ _ i j hi hj]

theorem ent_gSub (R C : ℕ) (g1 g2 : Grid) (i j : ℕ) (hi : i < R) (hj : j < C) :
    ent (gSub R C g1 g2) i j = ent g1 i j - ent g2 i j := by
  unfold gSub
  rw [ent_mkGrid _ _ _ i j hi hj]

theorem ent_gHad (R C : ℕ) (g1 g2 : Grid) (i j : ℕ) (hi : i < R) (hj : j < C) :
    ent (gHad R C g1 g2) i j = ent g1 i j * ent g2 i j := by
  unfold gHad
  rw [ent_mkGrid _ _ _ i j hi hj]

theorem ent_gScale (R C : ℕ) (g : Grid) (s : ℝ) (i j : ℕ) (hi : i < R) (hj : j < C) :
    ent (gScale R C g s) i j = ent g i j * s := by
  unfold gScale
  rw [ent_mkGrid _ _ _ i j hi hj]

theorem ent_gMap (R C : ℕ) (f : ℝ → ℝ) (g : Grid) (i j : ℕ) (hi : i < R) (hj : j < C) :
    ent (gMap R C f g) i j = f (ent g i j) := by
  unfold gMap
  rw [ent_mkGrid _ _ _ i j hi hj]

theorem ent_gT (R C : ℕ) (g : Grid) (i j : ℕ) (hi : i < R) (hj : j < C) :
    ent (gT R C g) i j = ent g j i := by
  unfold gT
  rw [ent_mkGrid _ _ _ i j hi hj]

theorem ent_gCol (v : List ℝ) (i : ℕ) (hi : i < v.length) :
    ent (gCol v) i 0 = v.getD i 0 := by
  unfold gCol
  rw [ent_mkGrid _ _ _ i 0 hi Nat.one_pos]

/-- `toArray` of any column-shaped matrix. -/
theorem toArray_colA (R : ℕ) (g : Grid) :
    (Matrix.mk R 1 g).toArray = (List.range R).map fun i => ent g i 0 := by
  unfold Matrix.toArray
  simp only
  rw [show ((List.range R).map fun i => (List.range 1).map fun j => ent g i j)
        = (List.range R).map fun i => [ent g i 0] from List.map_congr_left fun i _ => rfl]
  exact flatten_singletons _ _

/-! ### Evaluation of `predict` under the shape invariant -/

/-- The forward pass of the source, evaluated: under the shape side conditions
`predict` succeeds, leaves the store untouched, and returns exactly the spec's
`sigmoid(weights_ho · sigmoid(weights_ih · input + bias_h) + bias_o)`. -/
theorem predict_eval (st : Store) (net : NeuralNetwork) (x : List ℝ)
    (hWihC : net.weights_ih.cols = x.length)
    (hBhR : net.bias_h.rows = net.weights_ih.rows) (hBhC : net.bias_h.cols = 1)
    (hWhoC : net.weights_ho.cols = net.weights_ih.rows)
    (hBoR : net.bias_o.rows = net.weights_ho.rows) (hBoC : net.bias_o.cols = 1) :
    NeuralNetwork.predict st net x =
      .ok (specPredict x.length net.weights_ih.rows net.weights_ho.rows
        (Store.get st net.weights_ih.ref) (Store.get st net.weights_ho.ref)
        (Store.get st net.bias_h.ref) (Store.get st net.bias_o.ref) x, st) := by
  simp only [NeuralNetwork.predict]
  rw [Matrix.multiply_ok _ _ (by simpa [Matrix.fromArray] using hWihC)]
  simp only [orRaise_ok]
  rw [Matrix.add_ok _ _ (by simpa [Matrix.fromArray, HMat.get] using hBhR.symm)
    (by simpa [Matrix.fromArray, HMat.get] using hBhC.symm)]
  simp only [orRaise_ok, Matrix.map, Matrix.fromArray, HMat.get]
  rw [Matrix.multiply_ok _ _ (by simpa [HMat.get] using hWhoC)]
  simp only [orRaise_ok]
  rw [Matrix.add_ok _ _ (by simpa [HMat.get] using hBoR.symm)
    (by simpa [HMat.get] using hBoC.symm)]
  simp only [orRaise_ok, Matrix.map]
  refine congrArg (fun l => Except.ok (l, st)) ?_
  rw [toArray_col]
  unfold specPredict
  refine List.map_congr_left fun i hi => ?_
  have hiO : i < net.weights_ho.rows := List.mem_range.mp hi
  rw [ent_mkGrid _ _ _ i 0 hiO Nat.one_pos, ent_mkGrid _ _ _ i 0 hiO Nat.one_pos,
    foldl_range_sum]
  unfold specOutputVal
  congr 1
  congr 1
  rw [hWhoC]
  refine Finset.sum_congr rfl fun j hj => ?_
  have hjH : j < net.weights_ih.rows := Finset.mem_range.mp hj
  congr 1
  rw [ent_mkGrid _ _ _ j 0 hjH Nat.one_pos, ent_mkGrid _ _ _ j 0 hjH Nat.one_pos]
  unfold specHiddenVal
  congr 1
  congr 1
  rw [ent_mkGrid _ _ _ j 0 hjH Nat.one_pos, foldl_range_sum, hWihC]
  refine Finset.sum_congr rfl fun l hl => ?_
  have hlI : l < x.length := Finset.mem_range.mp hl
  congr 1
  rw [ent_mkGrid _ _ _ l 0 hlI Nat.one_pos]

/-- `train`, evaluated under the shape invariant: it succeeds and installs, at the
four stored references and in the source order, exactly the grids of the spec
step list (`specTrain`), whose step 5 uses the post-update `weights_ho`. -/
theorem train_eval (st : Store) (net : NeuralNetwork) (x t : List ℝ)
    (hWihC : net.weights_ih.cols = x.length)
    (hBhR : net.bias_h.rows = net.weights_ih.rows) (hBhC : net.bias_h.cols = 1)
    (hWhoC : net.weights_ho.cols = net.weights_ih.rows)
    (hBoR : net.bias_o.rows = net.weights_ho.rows) (hBoC : net.bias_o.cols = 1)
    (hT : t.length = net.weights_ho.rows)
    (hRefs : net.wfRefs) (hWhoLt : net.weights_ho.ref < st.length) :
    NeuralNetwork.train st net x t =
      .ok ((((st.set net.weights_ho.ref
        (specTrain x.length net.weights_ih.rows net.weights_ho.rows
          (Store.get st net.weights_ih.ref) (Store.get st net.weights_ho.ref)
          (Store.get st net.bias_h.ref) (Store.get st net.bias_o.ref)
          net.learningRate x t).2.1).set net.bias_o.ref
        (specTrain x.length net.weights_ih.rows net.weights_ho.rows
          (Store.get st net.weights_ih.ref) (Store.get st net.weights_ho.ref)
          (Store.get st net.bias_h.ref) (Store.get st net.bias_o.ref)
          net.learningRate x t).2.2.2).set net.weights_ih.ref
        (specTrain x.length net.weights_ih.rows net.weights_ho.rows
          (Store.get st net.weights_ih.ref) (Store.get st net.weights_ho.ref)
          (Store.get st net.bias_h.ref) (Store.get st net.bias_o.ref)
          net.learningRate x t).1).set net.bias_h.ref
        (specTrain x.length net.weights_ih.rows net.weights_ho.rows
          (Store.get st net.weights_ih.ref) (Store.get st net.weights_ho.ref)
          (Store.get st net.bias_h.ref) (Store.get st net.bias_o.ref)
          net.learningRate x t).2.2.1) := by
  obtain ⟨hIhHo, hIhBh, hIhBo, hHoBh, hHoBo, hBhBo⟩ := hRefs
  have dHoBo : ∀ (s : Store) g, Store.get (s.set net.weights_ho.ref g) net.bias_o.ref
      = Store.get s net.bias_o.ref := fun s g => Store.get_set_ne s _ _ g hHoBo
  have dBoHo : ∀ (s : Store) g, Store.get (s.set net.bias_o.ref g) net.weights_ho.ref
      = Store.get s net.weights_ho.ref := fun s g => Store.get_set_ne s _ _ g hHoBo.symm
  have dBoIh : ∀ (s : Store) g, Store.get (s.set net.bias_o.ref g) net.weights_ih.ref
      = Store.get s net.weights_ih.ref := fun s g => Store.get_set_ne s _ _ g hIhBo.symm
  have dHoIh : ∀ (s : Store) g, Store.get (s.set net.weights_ho.ref g) net.weights_ih.ref
      = Store.get s net.weights_ih.ref := fun s g => Store.get_set_ne s _ _ g hIhHo.symm
  have dIhBh : ∀ (s : Store) g, Store.get (s.set net.weights_ih.ref g) net.bias_h.ref
      = Store.get s net.bias_h.ref := fun s g => Store.get_set_ne s _ _ g hIhBh
  have dBoBh : ∀ (s : Store) g, Store.get (s.set net.bias_o.ref g) net.bias_h.ref
      = Store.get s net.bias_h.ref := fun s g => Store.get_set_ne s _ _ g hBhBo.symm
  have dHoBh : ∀ (s : Store) g, Store.get (s.set net.weights_ho.ref g) net.bias_h.ref
      = Store.get s net.bias_h.ref := fun s g => Store.get_set_ne s _ _ g hHoBh
  have dHoHo : ∀ g, Store.get (st.set net.weights_ho.ref g) net.weights_ho.ref = g :=
    fun g => Store.get_set_self st _ g hWhoLt
  simp only [NeuralNetwork.train, fromArray_eq, map_eq, transpose_eq, multiplyScalar_eq,
    HMat.get, dHoBo, dBoHo, dBoIh, dHoIh, dIhBh, dBoBh, dHoBh, dHoHo]
  rw [multiply_ok' _ _ (by simpa using hWihC)]
  simp only [orRaise_ok]
  rw [add_ok' _ _ (by simpa using hBhR.symm) (by simpa using hBhC.symm)]
  simp only [orRaise_ok]
  rw [multiply_ok' _ _ (by simpa using hWhoC)]
  simp only [orRaise_ok]
  rw [add_ok' _ _ (by simpa using hBoR.symm) (by simpa using hBoC.symm)]
  simp only [orRaise_ok]
  rw [subtract_ok' _ _ (by simpa using hT) (by rfl)]
  simp only [orRaise_ok]
  rw [multiplyElem_ok' _ _ (by simpa using hT.symm) (by rfl)]
  simp only [orRaise_ok]
  rw [multiply_ok' _ _ (by rfl)]
  simp only [orRaise_ok]
  rw [add_ok' _ _ (by rfl) (by simpa using hWhoC)]
  simp only [orRaise_ok]
  rw [add_ok' _ _ (by simpa using hBoR) (by simpa using hBoC)]
  simp only [orRaise_ok]
  rw [multiply_ok' _ _ (by simpa using hT.symm)]
  simp only [orRaise_ok]
  rw [multiplyElem_ok' _ _ (by simpa using hWhoC.symm) (by rfl)]
  simp only [orRaise_ok]
  rw [multiply_ok' _ _ (by rfl)]
  simp only [orRaise_ok]
  rw [add_ok' _ _ (by rfl) (by simpa using hWihC)]
  simp only [orRaise_ok]
  rw [add_ok' _ _ (by simpa using hBhR) (by simpa using hBhC)]
  simp only [orRaise_ok]
  set Wih := Store.get st net.weights_ih.ref with hWih
  set Who := Store.get st net.weights_ho.ref with hWho
  set bh := Store.get st net.bias_h.ref with hbh
  set bo := Store.get st net.bias_o.ref with hbo
  set Ghid := gMap net.weights_ih.rows 1 sigmoid (gAdd net.weights_ih.rows 1
    (gMul net.weights_ih.rows net.weights_ih.cols 1 Wih (gCol x)) bh) with hGhid
  set Gout := gMap net.weights_ho.rows 1 sigmoid (gAdd net.weights_ho.rows 1
    (gMul net.weights_ho.rows net.weights_ho.cols 1 Who Ghid) bo) with hGout
  set Gerr := gSub t.length 1 (gCol t) Gout with hGerr
  set Ggrad := gScale net.weights_ho.rows 1 (gHad net.weights_ho.rows 1
    (gMap net.weights_ho.rows 1 dsigmoid Gout) Gerr) net.learningRate with hGgrad
  set G2 := gAdd net.weights_ho.rows net.weights_ho.cols Who
    (gMul net.weights_ho.rows 1 net.weights_ih.rows Ggrad
      (gT 1 net.weights_ih.rows Ghid)) with hG2
  set Gherr := gMul net.weights_ho.cols net.weights_ho.rows 1
    (gT net.weights_ho.cols net.weights_ho.rows G2) Gerr with hGherr
  set Ghg := gScale net.weights_ih.rows 1 (gHad net.weights_ih.rows 1
    (gMap net.weights_ih.rows 1 dsigmoid Ghid) Gherr) net.learningRate with hGhg
  have eHid : ∀ j, j < net.weights_ih.rows →
      ent Ghid j 0 = specHiddenVal Wih bh x x.length j := by
    intro j hj
    rw [hGhid, ent_gMap _ _ _ _ j 0 hj Nat.one_pos, ent_gAdd _ _ _ _ j 0 hj Nat.one_pos,
      ent_gMul _ _ _ _ _ j 0 hj Nat.one_pos, hWihC]
    unfold specHiddenVal
    congr 1
    congr 1
    refine Finset.sum_congr rfl fun l hl => ?_
    congr 1
    exact ent_gCol x l (Finset.mem_range.mp hl)
  have eOut : ∀ k, k < net.weights_ho.rows →
      ent Gout k 0 = specOutputVal Wih Who bh bo x x.length net.weights_ih.rows k := by
    intro k hk
    rw [hGout, ent_gMap _ _ _ _ k 0 hk Nat.one_pos, ent_gAdd _ _ _ _ k 0 hk Nat.one_pos,
      ent_gMul _ _ _ _ _ k 0 hk Nat.one_pos, hWhoC]
    unfold specOutputVal
    congr 1
    congr 1
    refine Finset.sum_congr rfl fun j hj => ?_
    congr 1
    exact eHid j (Finset.mem_range.mp hj)
  have eErr : ∀ k, k < net.weights_ho.rows →
      ent Gerr k 0 = t.getD k 0 -
        specOutputVal Wih Who bh bo x x.length net.weights_ih.rows k := by
    intro k hk
    rw [hGerr, ent_gSub _ _ _ _ k 0 (by omega) Nat.one_pos, ent_gCol t k (by omega), eOut k hk]
  have eGrad : ∀ k, k < net.weights_ho.rows →
      ent Ggrad k 0 = specOutputVal Wih Who bh bo x x.length net.weights_ih.rows k *
        (1 - specOutputVal Wih Who bh bo x x.length net.weights_ih.rows k) *
        (t.getD k 0 - specOutputVal Wih Who bh bo x x.length net.weights_ih.rows k) *
        net.learningRate := by
    intro k hk
    rw [hGgrad, ent_gScale _ _ _ _ k 0 hk Nat.one_pos, ent_gHad _ _ _ _ k 0 hk Nat.one_pos,
      ent_gMap _ _ _ _ k 0 hk Nat.one_pos, eErr k hk, eOut k hk]
    unfold dsigmoid
    rfl
  have eG2 : ∀ k j, k < net.weights_ho.rows → j < net.weights_ih.rows →
      ent G2 k j = ent Who k j +
        specOutputVal Wih Who bh bo x x.length net.weights_ih.rows k *
        (1 - specOutputVal Wih Who bh bo x x.length net.weights_ih.rows k) *
        (t.getD k 0 - specOutputVal Wih Who bh bo x x.length net.weights_ih.rows k) *
        net.learningRate * specHiddenVal Wih bh x x.length j := by
    intro k j hk hj
    rw [hG2, ent_gAdd _ _ _ _ k j hk (by omega)]
    congr 1
    rw [ent_gMul _ _ _ _ _ k j hk hj, Finset.sum_range_one,
      ent_gT _ _ _ 0 j Nat.one_pos hj, eGrad k hk, eHid j hj]
  have eHerr : ∀ j, j < net.weights_ih.rows →
      ent Gherr j 0 = ∑ k ∈ Finset.range net.weights_ho.rows,
        (ent Who k j +
          specOutputVal Wih Who bh bo x x.length net.weights_ih.rows k *
          (1 - specOutputVal Wih Who bh bo x x.length net.weights_ih.rows k) *
          (t.getD k 0 - specOutputVal Wih Who bh bo x x.length net.weights_ih.rows k) *
          net.learningRate * specHiddenVal Wih bh x x.length j) *
        (t.getD k 0 - specOutputVal Wih Who bh bo x x.length net.weights_ih.rows k) := by
    intro j hj
    rw [hGherr, ent_gMul _ _ _ _ _ j 0 (by omega) Nat.one_pos]
    refine Finset.sum_congr rfl fun k hk => ?_
    have hkO : k < net.weights_ho.rows := Finset.mem_range.mp hk
    rw [ent_gT _ _ _ j k (by omega) hkO, eG2 k j hkO hj, eErr k hkO]
  have eHg : ∀ j, j < net.weights_ih.rows →
      ent Ghg j 0 = specHiddenVal Wih bh x x.length j *
        (1 - specHiddenVal Wih bh x x.length j) *
        (∑ k ∈ Finset.range net.weights_ho.rows,
          (ent Who k j +
            specOutputVal Wih Who bh bo x x.length net.weights_ih.rows k *
            (1 - specOutputVal Wih Who bh bo x x.length net.weights_ih.rows k) *
            (t.getD k 0 - specOutputVal Wih Who bh bo x x.length net.weights_ih.rows k) *
            net.learningRate * specHiddenVal Wih bh x x.length j) *
          (t.getD k 0 - specOutputVal Wih Who bh bo x x.length net.weights_ih.rows k)) *
        net.learningRate := by
    intro j hj
    rw [hGhg, ent_gScale _ _ _ _ j 0 hj Nat.one_pos, ent_gHad _ _ _ _ j 0 hj Nat.one_pos,
      ent_gMap _ _ _ _ j 0 hj Nat.one_pos, eHerr j hj, eHid j hj]
    unfold dsigmoid
    rfl
  simp only [specTrain]
  refine congrArg Except.ok ?_
  congr 1
  · congr 1
    · congr 1
      · congr 1
        rw [hG2]
        unfold gAdd
        rw [hWhoC]
        refine mkGrid_congr fun k hk j hj => ?_
        congr 1
        rw [ent_gMul _ _ _ _ _ k j hk hj, Finset.sum_range_one,
          ent_gT _ _ _ 0 j Nat.one_pos hj, eGrad k hk, eHid j hj]
      · unfold gAdd
        rw [hBoR, hBoC]
        refine mkGrid_congr fun k hk j hj => ?_
        have hj0 : j = 0 := by omega
        subst hj0
        congr 1
        exact eGrad k hk
    · unfold gAdd
      rw [hWihC]
      refine mkGrid_congr fun j hj i hi => ?_
      congr 1
      rw [ent_gMul _ _ _ _ _ j i hj hi, Finset.sum_range_one,
        ent_gT _ _ _ 0 i Nat.one_pos hi, ent_gCol x i hi, eHg j hj]
  · unfold gAdd
    rw [hBhR, hBhC]
    refine mkGrid_congr fun j hj i hi => ?_
    have hi0 : i = 0 := by omega
    subst hi0
    congr 1
    exact eHg j hj

/-- `predict` on a wrong-length input fails inside the first matrix product
with the dot-product error, carrying the untouched store. -/
theorem predict_dim_error (st : Store) (net : NeuralNetwork) (x : List ℝ)
    (hC : net.weights_ih.cols ≠ x.length) :
    NeuralNetwork.predict st net x = .error (dotErrorMsg, st) := by
  simp only [NeuralNetwork.predict]
  rw [Matrix.multiply_error _ _ (by simpa [Matrix.fromArray, HMat.get] using hC), orRaise_error]

/-- Any failure of `predict` leaves the store exactly as it was. -/
theorem predict_error_frame (st : Store) (net : NeuralNetwork) (x : List ℝ)
    (e : JSError) (st' : Store) (h : NeuralNetwork.predict st net x = .error (e, st')) :
    st' = st := by
  simp only [NeuralNetwork.predict] at h
  unfold orRaise at h
  split at h
  · simp only [Except.error.injEq, Prod.mk.injEq] at h
    exact h.2.symm
  · beta_reduce at h
    split at h
    · simp only [Except.error.injEq, Prod.mk.injEq] at h
      exact h.2.symm
    · beta_reduce at h
      split at h
      · simp only [Except.error.injEq, Prod.mk.injEq] at h
        exact h.2.symm
      · beta_reduce at h
        split at h
        · simp only [Except.error.injEq, Prod.mk.injEq] at h
          exact h.2.symm
        · cases h

/-- Any failure of `train` happens before the first in-place write: the store
carried by the raised error is the original one. -/
theorem train_error_frame (st : Store) (net : NeuralNetwork) (x t : List ℝ)
    (e : JSError) (st' : Store) (h : NeuralNetwork.train st net x t = .error (e, st')) :
    st' = st := by
  simp only [NeuralNetwork.train, fromArray_eq, map_eq, transpose_eq, multiplyScalar_eq,
    HMat.get] at h
  by_cases c1 : net.weights_ih.cols = x.length
  case neg =>
    rw [Matrix.multiply_error _ _ (by simpa using c1), orRaise_error] at h
    simp only [Except.error.injEq, Prod.mk.injEq] at h
    exact h.2.symm
  rw [multiply_ok' _ _ (by simpa using c1)] at h
  simp only [orRaise_ok] at h
  by_cases c2 : net.bias_h.rows = net.weights_ih.rows ∧ net.bias_h.cols = 1
  case neg =>
    rw [Matrix.add_error _ _ (by dsimp only; rcases not_and_or.mp c2 with hc | hc <;> omega),
      orRaise_error] at h
    simp only [Except.error.injEq, Prod.mk.injEq] at h
    exact h.2.symm
  rw [add_ok' _ _ (by simpa using c2.1.symm) (by simpa using c2.2.symm)] at h
  simp only [orRaise_ok] at h
  by_cases c3 : net.weights_ho.cols = net.weights_ih.rows
  case neg =>
    rw [Matrix.multiply_error _ _ (by simpa using c3), orRaise_error] at h
    simp only [Except.error.injEq, Prod.mk.injEq] at h
    exact h.2.symm
  rw [multiply_ok' _ _ (by simpa using c3)] at h
  simp only [orRaise_ok] at h
  by_cases c4 : net.bias_o.rows = net.weights_ho.rows ∧ net.bias_o.cols = 1
  case neg =>
    rw [Matrix.add_error _ _ (by dsimp only; rcases not_and_or.mp c4 with hc | hc <;> omega),
      orRaise_error] at h
    simp only [Except.error.injEq, Prod.mk.injEq] at h
    exact h.2.symm
  rw [add_ok' _ _ (by simpa using c4.1.symm) (by simpa using c4.2.symm)] at h
  simp only [orRaise_ok] at h
  by_cases c5 : t.length = net.weights_ho.rows
  case neg =>
    rw [Matrix.subtract_error _ _ (by dsimp only; omega), orRaise_error] at h
    simp only [Except.error.injEq, Prod.mk.injEq] at h
    exact h.2.symm
  rw [subtract_ok' _ _ (by simpa using c5) (by rfl)] at h
  simp only [orRaise_ok] at h
  rw [multiplyElem_ok' _ _ (by simpa using c5.symm) (by rfl)] at h
  simp only [orRaise_ok] at h
  rw [multiply_ok' _ _ (by rfl)] at h
  simp only [orRaise_ok] at h
  rw [add_ok' _ _ (by rfl) (by simpa using c3)] at h
  simp only [orRaise_ok] at h
  rw [add_ok' _ _ (by simpa using c4.1) (by simpa using c4.2)] at h
  simp only [orRaise_ok] at h
  rw [multiply_ok' _ _ (by simpa using c5.symm)] at h
  simp only [orRaise_ok] at h
  rw [multiplyElem_ok' _ _ (by simpa using c3.symm) (by rfl)] at h
  simp only [orRaise_ok] at h
  rw [multiply_ok' _ _ (by rfl)] at h
  simp only [orRaise_ok] at h
  rw [add_ok' _ _ (by rfl) (by simpa using c1)] at h
  simp only [orRaise_ok] at h
  rw [add_ok' _ _ (by simpa using c2.1) (by simpa using c2.2)] at h
  simp only [orRaise_ok] at h
  cases h

/-- With well-shaped fields and a correct-length input, a wrong-length target
makes `train` raise the subtraction shape error with the store untouched. -/
theorem train_target_error (st : Store) (net : NeuralNetwork) (x t : List ℝ)
    (hWihC : net.weights_ih.cols = x.length)
    (hBhR : net.bias_h.rows = net.weights_ih.rows) (hBhC : net.bias_h.cols = 1)
    (hWhoC : net.weights_ho.cols = net.weights_ih.rows)
    (hBoR : net.bias_o.rows = net.weights_ho.rows) (hBoC : net.bias_o.cols = 1)
    (hT : t.length ≠ net.weights_ho.rows) :
    NeuralNetwork.train st net x t = .error (subtractErrorMsg, st) := by
  simp only [NeuralNetwork.train, fromArray_eq, map_eq, transpose_eq, multiplyScalar_eq,
    HMat.get]
  rw [multiply_ok' _ _ (by simpa using hWihC)]
  simp only [orRaise_ok]
  rw [add_ok' _ _ (by simpa using hBhR.symm) (by simpa using hBhC.symm)]
  simp only [orRaise_ok]
  rw [multiply_ok' _ _ (by simpa using hWhoC)]
  simp only [orRaise_ok]
  rw [add_ok' _ _ (by simpa using hBoR.symm) (by simpa using hBoC.symm)]
  simp only [orRaise_ok]
  rw [Matrix.subtract_error _ _ (by dsimp only; omega), orRaise_error]

/-- A wrong-length input makes `train` raise the dot-product error immediately,
with the store untouched. -/
theorem train_dim_error (st : Store) (net : NeuralNetwork) (x t : List ℝ)
    (hC : net.weights_ih.cols ≠ x.length) :
    NeuralNetwork.train st net x t = .error (dotErrorMsg, st) := by
  simp only [NeuralNetwork.train, fromArray_eq, HMat.get]
  rw [Matrix.multiply_error _ _ (by simpa using hC), orRaise_error]

/-- Reads from the store after the four distinct writes of a `train` call. -/
theorem get_sets4 (st : Store) (r1 r2 r3 r4 : ℕ) (g1 g2 g3 g4 : Grid)
    (h12 : r1 ≠ r2) (h13 : r1 ≠ r3) (h14 : r1 ≠ r4)
    (h23 : r2 ≠ r3) (h24 : r2 ≠ r4) (h34 : r3 ≠ r4)
    (b1 : r1 < st.length) (b2 : r2 < st.length) (b3 : r3 < st.length) (b4 : r4 < st.length) :
    Store.get ((((st.set r1 g1).set r2 g2).set r3 g3).set r4 g4) r1 = g1 ∧
    Store.get ((((st.set r1 g1).set r2 g2).set r3 g3).set r4 g4) r2 = g2 ∧
    Store.get ((((st.set r1 g1).set r2 g2).set r3 g3).set r4 g4) r3 = g3 ∧
    Store.get ((((st.set r1 g1).set r2 g2).set r3 g3).set r4 g4) r4 = g4 ∧
    ∀ r, r ≠ r1 → r ≠ r2 → r ≠ r3 → r ≠ r4 →
      Store.get ((((st.set r1 g1).set r2 g2).set r3 g3).set r4 g4) r = Store.get st r := by
  refine ⟨?_, ?_, ?_, ?_, ?_⟩
  · rw [Store.get_set_ne _ _ _ _ h14.symm, Store.get_set_ne _ _ _ _ h13.symm,
      Store.get_set_ne _ _ _ _ h12.symm, Store.get_set_self _ _ _ b1]
  · rw [Store.get_set_ne _ _ _ _ h24.symm, Store.get_set_ne _ _ _ _ h23.symm,
      Store.get_set_self _ _ _ (by simpa using b2)]
  · rw [Store.get_set_ne _ _ _ _ h34.symm,
      Store.get_set_self _ _ _ (by simpa using b3)]
  · rw [Store.get_set_self _ _ _ (by simpa using b4)]
  · intro r hr1 hr2 hr3 hr4
    rw [Store.get_set_ne _ _ _ _ hr4.symm, Store.get_set_ne _ _ _ _ hr3.symm,
      Store.get_set_ne _ _ _ _ hr2.symm, Store.get_set_ne _ _ _ _ hr1.symm]

/-- The constructor establishes the shape invariant: fresh, distinct,
well-shaped grids and `learningRate = 0.1`. -/
theorem construct_wf (st : Store) (input hidden output : ℕ) (rnd : ℕ → ℕ → ℕ → ℝ) :
    (NeuralNetwork.construct st input hidden output rnd).2.wf
      (NeuralNetwork.construct st input hidden output rnd).1 := by
  have e0 : Store.get (st ++ [(mkGrid hidden input fun i j => rnd 0 i j * 2 - 1),
      (mkGrid output hidden fun i j => rnd 1 i j * 2 - 1),
      (mkGrid hidden 1 fun i j => rnd 2 i j * 2 - 1),
      (mkGrid output 1 fun i j => rnd 3 i j * 2 - 1)]) st.length
      = mkGrid hidden input fun i j => rnd 0 i j * 2 - 1 := by
    simpa using Store.get_append_right st _ 0
  have e1 : Store.get (st ++ [(mkGrid hidden input fun i j => rnd 0 i j * 2 - 1),
      (mkGrid output hidden fun i j => rnd 1 i j * 2 - 1),
      (mkGrid hidden 1 fun i j => rnd 2 i j * 2 - 1),
      (mkGrid output 1 fun i j => rnd 3 i j * 2 - 1)]) (st.length + 1)
      = mkGrid output hidden fun i j => rnd 1 i j * 2 - 1 := by
    simpa using Store.get_append_right st _ 1
  have e2 : Store.get (st ++ [(mkGrid hidden input fun i j => rnd 0 i j * 2 - 1),
      (mkGrid output hidden fun i j => rnd 1 i j * 2 - 1),
      (mkGrid hidden 1 fun i j => rnd 2 i j * 2 - 1),
      (mkGrid output 1 fun i j => rnd 3 i j * 2 - 1)]) (st.length + 2)
      = mkGrid hidden 1 fun i j => rnd 2 i j * 2 - 1 := by
    simpa using Store.get_append_right st _ 2
  have e3 : Store.get (st ++ [(mkGrid hidden input fun i j => rnd 0 i j * 2 - 1),
      (mkGrid output hidden fun i j => rnd 1 i j * 2 - 1),
      (mkGrid hidden 1 fun i j => rnd 2 i j * 2 - 1),
      (mkGrid output 1 fun i j => rnd 3 i j * 2 - 1)]) (st.length + 3)
      = mkGrid output 1 fun i j => rnd 3 i j * 2 - 1 := by
    simpa using Store.get_append_right st _ 3
  refine ⟨⟨rfl, rfl, rfl, rfl, rfl, rfl, rfl, rfl⟩, ?_, ?_⟩
  · simp only [NeuralNetwork.construct, NeuralNetwork.wfGrids, HMat.wfIn, Matrix.randomize,
      newMatrix]
    refine ⟨⟨by simp, ?_⟩, ⟨by simp, ?_⟩, ⟨by simp, ?_⟩, ⟨by simp, ?_⟩⟩
    · rw [e0]
      exact mkGrid_wf _ _ _
    · rw [e1]
      exact mkGrid_wf _ _ _
    · rw [e2]
      exact mkGrid_wf _ _ _
    · rw [e3]
      exact mkGrid_wf _ _ _
  · simp only [NeuralNetwork.construct, NeuralNetwork.wfRefs]
    refine ⟨by omega, by omega, by omega, by omega, by omega, by omega⟩

/-- A successful `train` call preserves the full shape invariant. -/
theorem train_preserves_wf (st : Store) (net : NeuralNetwork) (x t : List ℝ) (st' : Store)
    (hwf : net.wf st) (h : NeuralNetwork.train st net x t = .ok st') : net.wf st' := by
  obtain ⟨hs, hg, hr⟩ := hwf
  obtain ⟨s1, s2, s3, s4, s5, s6, s7, s8⟩ := hs
  obtain ⟨hih, hho, hbh, hbo⟩ := hg
  obtain ⟨r1, r2, r3, r4, r5, r6⟩ := hr
  by_cases c1 : net.weights_ih.cols = x.length
  case neg =>
    rw [train_dim_error st net x t c1] at h
    cases h
  by_cases c5 : t.length = net.weights_ho.rows
  case neg =>
    rw [train_target_error st net x t c1 (by omega) (by omega) (by omega) (by omega)
      (by omega) c5] at h
    cases h
  rw [train_eval st net x t c1 (by omega) (by omega) (by omega) (by omega) (by omega) c5
    ⟨r1, r2, r3, r4, r5, r6⟩ hho.1] at h
  cases h
  obtain ⟨g2, g4, g1, g3, _⟩ := get_sets4 st net.weights_ho.ref net.bias_o.ref
    net.weights_ih.ref net.bias_h.ref _ _ _ _
    r5 r1.symm r4 r3.symm r6.symm r2
    hho.1 hbo.1 hih.1 hbh.1
  refine ⟨⟨s1, s2, s3, s4, s5, s6, s7, s8⟩, ⟨⟨?_, ?_⟩, ⟨?_, ?_⟩, ⟨?_, ?_⟩, ⟨?_, ?_⟩⟩,
    r1, r2, r3, r4, r5, r6⟩
  · simpa using hih.1
  · rw [g1]
    simp only [specTrain]
    rw [c1]
    exact mkGrid_wf _ _ _
  · simpa using hho.1
  · rw [g2]
    simp only [specTrain]
    rw [show net.weights_ho.cols = net.weights_ih.rows from by omega]
    exact mkGrid_wf _ _ _
  · simpa using hbh.1
  · rw [g3]
    simp only [specTrain]
    rw [show net.bias_h.rows = net.weights_ih.rows from by omega,
      show net.bias_h.cols = 1 from s6]
    exact mkGrid_wf _ _ _
  · simpa using hbo.1
  · rw [g4]
    simp only [specTrain]
    rw [show net.bias_o.rows = net.weights_ho.rows from by omega,
      show net.bias_o.cols = 1 from s8]
    exact mkGrid_wf _ _ _

/-- The store an exception-free caller observes: the payload store of either
branch. -/
def outStore : Except (JSError × Store) (List ℝ × Store) → Store
  | .ok (_, s) => s
  | .error (_, s) => s

/-- `predict` hands back the store untouched on every path. -/
theorem predict_outStore (st : Store) (net : NeuralNetwork) (x : List ℝ) :
    outStore (NeuralNetwork.predict st net x) = st := by
  simp only [NeuralNetwork.predict]
  unfold orRaise
  split
  · rfl
  · beta_reduce
    split
    · rfl
    · beta_reduce
      split
      · rfl
      · beta_reduce
        split
        · rfl
        · rfl

theorem sigmoid_zero : sigmoid 0 = 1 / 2 := by
  unfold sigmoid
  rw [neg_zero, Real.exp_zero]
  norm_num

/-- Rebuilding a rectangular grid entry by entry gives it back. -/
theorem mkGrid_ent_self (r c : ℕ) (g : Grid) (h : Grid.wf r c g) :
    mkGrid r c (ent g) = g := by
  obtain ⟨hlen, hrow⟩ := h
  refine List.ext_getElem (by simp [length_mkGrid, hlen]) ?_
  intro i h1 h2
  simp only [mkGrid]
  rw [List.getElem_map, List.getElem_range]
  have hrl : (g[i]).length = c := hrow g[i] (List.getElem_mem h2)
  refine List.ext_getElem (by simp [hrl]) ?_
  intro j hj1 hj2
  rw [List.getElem_map, List.getElem_range]
  unfold ent
  rw [List.getD_eq_getElem?_getD g i [], List.getElem?_eq_getElem h2, Option.getD_some,
    List.getD_eq_getElem?_getD, List.getElem?_eq_getElem hj2, Option.getD_some]

/-- The identity matrix of the spec property `multiply(transpose(transpose(M)), I) == M`
(the source itself defines no identity; this is the spec object). -/
def identityMatrix (n : ℕ) : Matrix :=
  { rows := n, cols := n, data := mkGrid n n fun i j => if i = j then 1 else 0 }

/-- A concrete four-grid store: the 1-1-1 all-zero network state. -/
def st0 : Store := [[[0]], [[0]], [[0]], [[0]]]

/-- A concrete 1-1-1 network over `st0` with zero weights and learning rate 1. -/
def net0 : NeuralNetwork :=
  { inputNodes := 1, hiddenNodes := 1, outputNodes := 1,
    weights_ih := { rows := 1, cols := 1, ref := 0 },
    weights_ho := { rows := 1, cols := 1, ref := 1 },
    bias_h := { rows := 1, cols := 1, ref := 2 },
    bias_o := { rows := 1, cols := 1, ref := 3 },
    learningRate := 1 }

/-- A concrete network with `inputNodes = 2` (for the shape-violation claims). -/
def net2 : NeuralNetwork :=
  { inputNodes := 2, hiddenNodes := 2, outputNodes := 1,
    weights_ih := { rows := 2, cols := 2, ref := 0 },
    weights_ho := { rows := 1, cols := 2, ref := 1 },
    bias_h := { rows := 2, cols := 1, ref := 2 },
    bias_o := { rows := 1, cols := 1, ref := 3 },
    learningRate := 1 }

/-- The store after `train st0 net0 [0] [1]`: the hidden-to-output weight grid
(reference 1), the hidden bias (reference 2) and the output bias (reference 3)
all change. -/
noncomputable def stAfter0 : Store := [[[0]], [[1 / 16]], [[1 / 128]], [[1 / 8]]]

/-- A successful `train` writes only at the four matrices of the network: every
other reference reads the same grid as before. -/
theorem train_ok_frame (st : Store) (net : NeuralNetwork) (x t : List ℝ) (st' : Store)
    (h : NeuralNetwork.train st net x t = .ok st') :
    ∀ r, r ≠ net.weights_ih.ref → r ≠ net.weights_ho.ref → r ≠ net.bias_h.ref →
      r ≠ net.bias_o.ref → Store.get st' r = Store.get st r := by
  simp only [NeuralNetwork.train, fromArray_eq, map_eq, transpose_eq, multiplyScalar_eq,
    HMat.get] at h
  by_cases c1 : net.weights_ih.cols = x.length
  case neg =>
    rw [Matrix.multiply_error _ _ (by simpa using c1), orRaise_error] at h
    cases h
  rw [multiply_ok' _ _ (by simpa using c1)] at h
  simp only [orRaise_ok] at h
  by_cases c2 : net.bias_h.rows = net.weights_ih.rows ∧ net.bias_h.cols = 1
  case neg =>
    rw [Matrix.add_error _ _ (by dsimp only; rcases not_and_or.mp c2 with hc | hc <;> omega),
      orRaise_error] at h
    cases h
  rw [add_ok' _ _ (by simpa using c2.1.symm) (by simpa using c2.2.symm)] at h
  simp only [orRaise_ok] at h
  by_cases c3 : net.weights_ho.cols = net.weights_ih.rows
  case neg =>
    rw [Matrix.multiply_error _ _ (by simpa using c3), orRaise_error] at h
    cases h
  rw [multiply_ok' _ _ (by simpa using c3)] at h
  simp only [orRaise_ok] at h
  by_cases c4 : net.bias_o.rows = net.weights_ho.rows ∧ net.bias_o.cols = 1
  case neg =>
    rw [Matrix.add_error _ _ (by dsimp only; rcases not_and_or.mp c4 with hc | hc <;> omega),
      orRaise_error] at h
    cases h
  rw [add_ok' _ _ (by simpa using c4.1.symm) (by simpa using c4.2.symm)] at h
  simp only [orRaise_ok] at h
  by_cases c5 : t.length = net.weights_ho.rows
  case neg =>
    rw [Matrix.subtract_error _ _ (by dsimp only; omega), orRaise_error] at h
    cases h
  rw [subtract_ok' _ _ (by simpa using c5) (by rfl)] at h
  simp only [orRaise_ok] at h
  rw [multiplyElem_ok' _ _ (by simpa using c5.symm) (by rfl)] at h
  simp only [orRaise_ok] at h
  rw [multiply_ok' _ _ (by rfl)] at h
  simp only [orRaise_ok] at h
  rw [add_ok' _ _ (by rfl) (by simpa using c3)] at h
  simp only [orRaise_ok] at h
  rw [add_ok' _ _ (by simpa using c4.1) (by simpa using c4.2)] at h
  simp only [orRaise_ok] at h
  rw [multiply_ok' _ _ (by simpa using c5.symm)] at h
  simp only [orRaise_ok] at h
  rw [multiplyElem_ok' _ _ (by simpa using c3.symm) (by rfl)] at h
  simp only [orRaise_ok] at h
  rw [multiply_ok' _ _ (by rfl)] at h
  simp only [orRaise_ok] at h
  rw [add_ok' _ _ (by rfl) (by simpa using c1)] at h
  simp only [orRaise_ok] at h
  rw [add_ok' _ _ (by simpa using c2.1) (by simpa using c2.2)] at h
  simp only [orRaise_ok] at h
  cases h
  intro r hih hho hbh hbo
  rw [Store.get_set_ne _ _ _ _ hbh.symm, Store.get_set_ne _ _ _ _ hih.symm,
    Store.get_set_ne _ _ _ _ hbo.symm, Store.get_set_ne _ _ _ _ hho.symm]

/-- Evaluation of one concrete training step on the zero 1-1-1 network. -/
theorem train0_eval : NeuralNetwork.train st0 net0 [0] [1] = .ok stAfter0 := by
  rw [train_eval st0 net0 [0] [1] rfl rfl rfl rfl rfl rfl rfl
    ⟨by decide, by decide, by decide, by decide, by decide, by decide⟩ (by simp [st0, net0])]
  refine congrArg Except.ok ?_
  simp only [specTrain, specOutputVal, specHiddenVal, st0, net0, stAfter0, Store.get,
    Finset.sum_range_one, mkGrid, List.range_succ, List.range_zero, ent]
  norm_num [sigmoid_zero]

/-- The concrete zero network is fully well-formed over `st0`. -/
theorem net0_wf : net0.wf st0 := by
  refine ⟨⟨rfl, rfl, rfl, rfl, rfl, rfl, rfl, rfl⟩,
    ⟨⟨by norm_num [st0, net0], ?_⟩, ⟨by norm_num [st0, net0], ?_⟩,
     ⟨by norm_num [st0, net0], ?_⟩, ⟨by norm_num [st0, net0], ?_⟩⟩,
    by decide, by decide, by decide, by decide, by decide, by decide⟩ <;>
  simp [Grid.wf, Store.get, st0, net0]

/-- A concrete 2×2 matrix for the transpose/identity witness. -/
def M10 : Matrix := { rows := 2, cols := 2, data := [[1, 2], [3, 4]] }

/-! ### The claims -/

/-- C1: in every `train(input, target)` call the hidden-layer error is computed
as `transpose(weights_ho) · outputError` using the `weights_ho` matrix AFTER it
has already been incremented by the output-layer delta in step 4 of the same
call: a successful `train` installs at the four stored grids exactly the
results of the spec step list `specTrain`, whose step 5 uses the post-update
weights (the reference literal in-place sequencing), not the pre-update ones. -/
theorem claim_C1_train_hidden_error_post_update (st : Store) (net : NeuralNetwork)
    (x t : List ℝ)
    (hWihC : net.weights_ih.cols = x.length)
    (hBhR : net.bias_h.rows = net.weights_ih.rows) (hBhC : net.bias_h.cols = 1)
    (hWhoC : net.weights_ho.cols = net.weights_ih.rows)
    (hBoR : net.bias_o.rows = net.weights_ho.rows) (hBoC : net.bias_o.cols = 1)
    (hT : t.length = net.weights_ho.rows)
    (hRefs : net.wfRefs) (hWhoLt : net.weights_ho.ref < st.length) :
    NeuralNetwork.train st net x t =
      .ok ((((st.set net.weights_ho.ref
        (specTrain x.length net.weights_ih.rows net.weights_ho.rows
          (Store.get st net.weights_ih.ref) (Store.get st net.weights_ho.ref)
          (Store.get st net.bias_h.ref) (Store.get st net.bias_o.ref)
          net.learningRate x t).2.1).set net.bias_o.ref
        (specTrain x.length net.weights_ih.rows net.weights_ho.rows
          (Store.get st net.weights_ih.ref) (Store.get st net.weights_ho.ref)
          (Store.get st net.bias_h.ref) (Store.get st net.bias_o.ref)
          net.learningRate x t).2.2.2).set net.weights_ih.ref
        (specTrain x.length net.weights_ih.rows net.weights_ho.rows
          (Store.get st net.weights_ih.ref) (Store.get st net.weights_ho.ref)
          (Store.get st net.bias_h.ref) (Store.get st net.bias_o.ref)
          net.learningRate x t).1).set net.bias_h.ref
        (specTrain x.length net.weights_ih.rows net.weights_ho.rows
          (Store.get st net.weights_ih.ref) (Store.get st net.weights_ho.ref)
          (Store.get st net.bias_h.ref) (Store.get st net.bias_o.ref)
          net.learningRate x t).2.2.1) :=
  train_eval st net x t hWihC hBhR hBhC hWhoC hBoR hBoC hT hRefs hWhoLt

/-- Witness for C1 at the concrete zero 1-1-1 network. -/
theorem claim_C1_witness : (NeuralNetwork.train st0 net0 [0] [1]).isOk = true := by
  rw [claim_C1_train_hidden_error_post_update st0 net0 [0] [1] rfl rfl rfl rfl rfl rfl rfl
    ⟨by decide, by decide, by decide, by decide, by decide, by decide⟩ (by simp [st0, net0])]
  rfl

/-- C2 counterexample: after `serialize`, a single `train` call changes the
grid a previously returned snapshot points at — the snapshot is NOT an
independent deep copy. -/
theorem claim_C2_counterexample :
    NeuralNetwork.train st0 net0 [0] [1] = .ok stAfter0 ∧
    Store.get stAfter0 (NeuralNetwork.serialize net0).weights_ho ≠
      Store.get st0 (NeuralNetwork.serialize net0).weights_ho := by
  refine ⟨train0_eval, ?_⟩
  simp only [stAfter0, st0, NeuralNetwork.serialize, net0, Store.get]
  norm_num

/-- C2 amended: `serialize` copies the three topology integers and the learning
rate by value, but returns the four grids by reference — the snapshot shares
its backing arrays with the live matrices. -/
theorem claim_C2_amended_serialize_shares_grids (net : NeuralNetwork) :
    (NeuralNetwork.serialize net).weights_ih = net.weights_ih.ref ∧
    (NeuralNetwork.serialize net).weights_ho = net.weights_ho.ref ∧
    (NeuralNetwork.serialize net).bias_h = net.bias_h.ref ∧
    (NeuralNetwork.serialize net).bias_o = net.bias_o.ref ∧
    (NeuralNetwork.serialize net).inputNodes = net.inputNodes ∧
    (NeuralNetwork.serialize net).hiddenNodes = net.hiddenNodes ∧
    (NeuralNetwork.serialize net).outputNodes = net.outputNodes ∧
    (NeuralNetwork.serialize net).learningRate = net.learningRate :=
  ⟨rfl, rfl, rfl, rfl, rfl, rfl, rfl, rfl⟩

/-- C3: `deserialize(serialize(n))` applied to any network yields a network
whose `predict` result is identical to that of `n` on every input of length
`n.inputNodes`, and whose learning rate equals that of `n`. -/
theorem claim_C3_roundtrip (st : Store) (net m : NeuralNetwork) (input : List ℝ)
    (hwf : net.wfShape) (hlen : input.length = net.inputNodes) :
    NeuralNetwork.predict st (NeuralNetwork.deserialize m (NeuralNetwork.serialize net)) input
      = NeuralNetwork.predict st net input ∧
    (NeuralNetwork.deserialize m (NeuralNetwork.serialize net)).learningRate
      = net.learningRate := by
  obtain ⟨s1, s2, s3, s4, s5, s6, s7, s8⟩ := hwf
  refine ⟨?_, rfl⟩
  simp only [NeuralNetwork.predict, NeuralNetwork.deserialize, NeuralNetwork.serialize,
    HMat.get]
  rw [s1, s2, s3, s4, s5, s6, s7, s8]

/-- Witness for C3 at the concrete zero 1-1-1 network. -/
theorem claim_C3_witness :
    NeuralNetwork.predict st0
        (NeuralNetwork.deserialize net2 (NeuralNetwork.serialize net0)) [0]
      = NeuralNetwork.predict st0 net0 [0] ∧
    (NeuralNetwork.deserialize net2 (NeuralNetwork.serialize net0)).learningRate
      = net0.learningRate :=
  claim_C3_roundtrip st0 net0 net2 [0] ⟨rfl, rfl, rfl, rfl, rfl, rfl, rfl, rfl⟩ rfl

/-- C4: for a well-shaped network and an input of length `inputNodes`,
`predict` returns exactly the flat vector of length `outputNodes` given by
`sigmoid(weights_ho · sigmoid(weights_ih · input + bias_h) + bias_o)`, the
matrix products being plain dot-product sums (`specPredict`). -/
theorem claim_C4_predict_formula (st : Store) (net : NeuralNetwork) (x : List ℝ)
    (hwf : net.wfShape) (hlen : x.length = net.inputNodes) :
    NeuralNetwork.predict st net x = .ok (specPredict net.inputNodes net.hiddenNodes
      net.outputNodes (Store.get st net.weights_ih.ref) (Store.get st net.weights_ho.ref)
      (Store.get st net.bias_h.ref) (Store.get st net.bias_o.ref) x, st) := by
  obtain ⟨s1, s2, s3, s4, s5, s6, s7, s8⟩ := hwf
  rw [predict_eval st net x (by omega) (by omega) (by omega) (by omega) (by omega)
    (by omega)]
  rw [hlen, s1, s3]

/-- Witness for C4 at the concrete zero 1-1-1 network. -/
theorem claim_C4_witness :
    NeuralNetwork.predict st0 net0 [0] = .ok (specPredict net0.inputNodes net0.hiddenNodes
      net0.outputNodes (Store.get st0 net0.weights_ih.ref)
      (Store.get st0 net0.weights_ho.ref) (Store.get st0 net0.bias_h.ref)
      (Store.get st0 net0.bias_o.ref) [0], st0) :=
  claim_C4_predict_formula st0 net0 [0] ⟨rfl, rfl, rfl, rfl, rfl, rfl, rfl, rfl⟩ rfl

/-- C5: `predict` is pure — it hands the store back untouched on every path
(weights, biases, learning rate and topology live outside the store and are
never rebound), and a second call on the resulting state returns the same
value as the first. -/
theorem claim_C5_predict_pure (st : Store) (net : NeuralNetwork) (x : List ℝ) :
    outStore (NeuralNetwork.predict st net x) = st ∧
    NeuralNetwork.predict (outStore (NeuralNetwork.predict st net x)) net x
      = NeuralNetwork.predict st net x := by
  refine ⟨predict_outStore st net x, ?_⟩
  rw [predict_outStore st net x]

/-- C6 counterexample: `predict([0,0,0])` on a network with `inputNodes = 2`
raises the dot-product error of the inner matrix product — a
DimensionMismatch, not a ShapeMismatch as the claim states. -/
theorem claim_C6_counterexample :
    NeuralNetwork.predict st0 net2 [0, 0, 0] = .error (dotErrorMsg, st0) ∧
    ¬ IsShapeMismatch dotErrorMsg ∧ IsDimensionMismatch dotErrorMsg := by
  refine ⟨predict_dim_error st0 net2 [0, 0, 0] (by decide), ?_, rfl⟩
  intro hcon
  rcases hcon with hmsg | hmsg | hmsg <;>
    simp [dotErrorMsg, addErrorMsg, subtractErrorMsg, elemMulErrorMsg] at hmsg

/-- C6 amended: a wrong-length input makes `predict` fail with the
DimensionMismatch error raised by the inner product `weights_ih · input`; the
static product with `A.cols ≠ B.rows` fails with DimensionMismatch as claimed. -/
theorem claim_C6_amended_dimension_error (st : Store) (net : NeuralNetwork) (x : List ℝ)
    (hW : net.weights_ih.cols = net.inputNodes) (hx : x.length ≠ net.inputNodes) :
    (NeuralNetwork.predict st net x = .error (dotErrorMsg, st) ∧
      IsDimensionMismatch dotErrorMsg) ∧
    ∀ A B : Matrix, A.cols ≠ B.rows → Matrix.multiply A B = .error dotErrorMsg :=
  ⟨⟨predict_dim_error st net x (by omega), rfl⟩,
   fun A B hAB => Matrix.multiply_error A B hAB⟩

/-- Witness for the amended C6 at concrete inputs. -/
theorem claim_C6_witness :
    (NeuralNetwork.predict st0 net2 [0, 0, 0] = .error (dotErrorMsg, st0) ∧
      IsDimensionMismatch dotErrorMsg) ∧
    Matrix.multiply (identityMatrix 2) (identityMatrix 3) = .error dotErrorMsg :=
  ⟨(claim_C6_amended_dimension_error st0 net2 [0, 0, 0] rfl (by decide)).1,
   (claim_C6_amended_dimension_error st0 net2 [0, 0, 0] rfl (by decide)).2
     (identityMatrix 2) (identityMatrix 3) (by decide)⟩

/-- C7: no core operation is partial on error — whenever `train` or `predict`
raises a shape/dimension error, the store (and with it every stored matrix of
the network) is exactly as before the call; in particular `train` with a
wrong-length target raises the subtraction ShapeMismatch and changes nothing. -/
theorem claim_C7_no_partial_update :
    (∀ (st : Store) (net : NeuralNetwork) (x t : List ℝ) (e : JSError) (st' : Store),
      NeuralNetwork.train st net x t = .error (e, st') → st' = st) ∧
    (∀ (st : Store) (net : NeuralNetwork) (x : List ℝ) (e : JSError) (st' : Store),
      NeuralNetwork.predict st net x = .error (e, st') → st' = st) ∧
    (∀ (st : Store) (net : NeuralNetwork) (x t : List ℝ), net.wfShape →
      x.length = net.inputNodes → t.length ≠ net.outputNodes →
      NeuralNetwork.train st net x t = .error (subtractErrorMsg, st) ∧
      IsShapeMismatch subtractErrorMsg) := by
  refine ⟨train_error_frame, predict_error_frame, ?_⟩
  intro st net x t hwf hx ht
  obtain ⟨s1, s2, s3, s4, s5, s6, s7, s8⟩ := hwf
  exact ⟨train_target_error st net x t (by omega) (by omega) (by omega) (by omega)
    (by omega) (by omega) (by omega), Or.inr (Or.inl rfl)⟩

/-- Witness for C7: a concrete wrong-length-target call raises and leaves the
store unchanged. -/
theorem claim_C7_witness :
    NeuralNetwork.train st0 net0 [0] [1, 1] = .error (subtractErrorMsg, st0) ∧
    IsShapeMismatch subtractErrorMsg :=
  claim_C7_no_partial_update.2.2 st0 net0 [0] [1, 1]
    ⟨rfl, rfl, rfl, rfl, rfl, rfl, rfl, rfl⟩ rfl (by decide)

/-- C8: every construction with positive topology establishes the shape
invariant (`weights_ih : hidden×input`, `weights_ho : output×hidden`,
`bias_h : hidden×1`, `bias_o : output×1`, captured by `NeuralNetwork.wf`) with
`learningRate = 0.1` independent of topology, and every successful `train`
call preserves the invariant. -/
theorem claim_C8_shape_invariant :
    (∀ (st : Store) (input hidden output : ℕ) (rnd : ℕ → ℕ → ℕ → ℝ),
      0 < input → 0 < hidden → 0 < output →
      (NeuralNetwork.construct st input hidden output rnd).2.wf
        (NeuralNetwork.construct st input hidden output rnd).1 ∧
      (NeuralNetwork.construct st input hidden output rnd).2.learningRate = 0.1) ∧
    (∀ (st : Store) (net : NeuralNetwork) (x t : List ℝ) (st' : Store),
      net.wf st → NeuralNetwork.train st net x t = .ok st' → net.wf st') :=
  ⟨fun st i h o rnd _ _ _ => ⟨construct_wf st i h o rnd, rfl⟩, train_preserves_wf⟩

/-- Witness for C8 at concrete inputs. -/
theorem claim_C8_witness :
    ((NeuralNetwork.construct [] 1 1 1 fun _ _ _ => 0).2.wf
      (NeuralNetwork.construct [] 1 1 1 fun _ _ _ => 0).1 ∧
     (NeuralNetwork.construct [] 1 1 1 fun _ _ _ => 0).2.learningRate = 0.1) ∧
    net0.wf stAfter0 :=
  ⟨claim_C8_shape_invariant.1 [] 1 1 1 (fun _ _ _ => 0) (by decide) (by decide) (by decide),
   claim_C8_shape_invariant.2 st0 net0 [0] [1] stAfter0 net0_wf train0_eval⟩

/-- C9: `deserialize(s)` installs the snapshot arrays as the live backing
grids without copying — the rebuilt matrices hold exactly the references of
`s` — and every subsequent successful `train` writes only at those references,
i.e. it mutates the grids of the snapshot object itself. -/
theorem claim_C9_deserialize_aliases (net : NeuralNetwork) (s : SerializedNetwork) :
    ((NeuralNetwork.deserialize net s).weights_ih.ref = s.weights_ih ∧
     (NeuralNetwork.deserialize net s).weights_ho.ref = s.weights_ho ∧
     (NeuralNetwork.deserialize net s).bias_h.ref = s.bias_h ∧
     (NeuralNetwork.deserialize net s).bias_o.ref = s.bias_o) ∧
    ∀ (st : Store) (x t : List ℝ) (st' : Store),
      NeuralNetwork.train st (NeuralNetwork.deserialize net s) x t = .ok st' →
      ∀ r, r ≠ s.weights_ih → r ≠ s.weights_ho → r ≠ s.bias_h → r ≠ s.bias_o →
        Store.get st' r = Store.get st r := by
  refine ⟨⟨rfl, rfl, rfl, rfl⟩, ?_⟩
  intro st x t st' h r h1 h2 h3 h4
  exact train_ok_frame st _ x t st' h r h1 h2 h3 h4

/-- Witness for C9 at the concrete zero 1-1-1 network and its snapshot. -/
theorem claim_C9_witness :
    ((NeuralNetwork.deserialize net2 (NeuralNetwork.serialize net0)).weights_ih.ref
      = (NeuralNetwork.serialize net0).weights_ih) ∧
    Store.get stAfter0 4 = Store.get st0 4 :=
  ⟨(claim_C9_deserialize_aliases net2 (NeuralNetwork.serialize net0)).1.1,
   (claim_C9_deserialize_aliases net2 (NeuralNetwork.serialize net0)).2 st0 [0] [1]
     stAfter0 train0_eval 4 (by decide) (by decide) (by decide) (by decide)⟩

/-- C10: for every rectangular matrix with `R ≥ 1`, `C ≥ 1`, transpose is
involutive and multiplying the double transpose by the identity of matching
size gives the matrix back. -/
theorem claim_C10_transpose_involutive (M : Matrix) (hwf : M.wf)
    (hr : 1 ≤ M.rows) (hc : 1 ≤ M.cols) :
    Matrix.transpose (Matrix.transpose M) = M ∧
    Matrix.multiply (Matrix.transpose (Matrix.transpose M)) (identityMatrix M.cols)
      = .ok M := by
  obtain ⟨R, C, D⟩ := M
  have hTT : Matrix.transpose (Matrix.transpose (Matrix.mk R C D)) = Matrix.mk R C D := by
    unfold Matrix.transpose
    simp only
    refine congrArg (Matrix.mk R C) ?_
    rw [show (mkGrid R C fun i j => ent (mkGrid C R fun i j => ent D j i) j i)
          = mkGrid R C (ent D) from mkGrid_congr fun i hi j hj => ent_mkGrid _ _ _ j i hj hi]
    exact mkGrid_ent_self R C D hwf
  refine ⟨hTT, ?_⟩
  rw [hTT, Matrix.multiply_ok _ _ (by rfl)]
  refine congrArg Except.ok ?_
  refine congrArg (Matrix.mk R C) ?_
  dsimp only
  rw [show (mkGrid R (identityMatrix C).cols fun i j => (List.range C).foldl (fun sum k =>
        sum + ent D i k * ent (identityMatrix C).data k j) 0) = mkGrid R C (ent D) from ?_]
  · exact mkGrid_ent_self R C D hwf
  refine mkGrid_congr fun i hi j hj => ?_
  rw [foldl_range_sum]
  calc (∑ k ∈ Finset.range C, ent D i k * ent (identityMatrix C).data k j)
      = ∑ k ∈ Finset.range C, if k = j then ent D i k else 0 := by
        refine Finset.sum_congr rfl fun k hk => ?_
        rw [show ent (identityMatrix C).data k j = if k = j then 1 else 0 from
          ent_mkGrid _ _ _ k j (Finset.mem_range.mp hk) hj]
        rw [mul_ite, mul_one, mul_zero]
    _ = ent D i j := by
        have hjC : j < C := hj
        rw [Finset.sum_ite_eq' (Finset.range C) j (fun k => ent D i k)]
        simp [Finset.mem_range, hjC]

/-- Witness for C10 at a concrete 2×2 matrix. -/
theorem claim_C10_witness :
    Matrix.transpose (Matrix.transpose M10) = M10 ∧
    Matrix.multiply (Matrix.transpose (Matrix.transpose M10)) (identityMatrix M10.cols)
      = .ok M10 :=
  claim_C10_transpose_involutive M10 ⟨rfl, by decide⟩ (by decide) (by decide)

end NNXor
